import Mathlib

set_option maxHeartbeats 1000000

/-!
Verification development for the CloudStack `instance` module
(`plugins/modules/instance.py`): a shallow embedding of the module's
change-detection and reconciliation logic, together with theorems about it.

Conventions of the embedding:
* Python `module.params` (plus `module.check_mode` and the pre-resolved
  account/domain/project/zone scope ids from the base class) become the
  `Params` structure; an unset parameter is `none`.
* The control plane's listings (templates, ISOs, service offerings,
  networks, hosts, SSH key pairs, ...) become the `Env` structure; the
  read-only `query_api` list calls are lookups in `Env`.
* Mutating `query_api` calls are recorded, in order, in `RunState.ops`;
  `result["changed"]` is `RunState.changed`; `module.warn` appends the
  instance name to `RunState.warnings`.
* `module.fail_json` becomes `Except.error` carrying the message
  (apostrophe quoting around interpolated names in the Python messages is
  elided, and Python's list `repr` in one message is simplified to a
  comma-joined list).
* Asynchronous jobs: `poll_job` (base class, not under `src/`) is modelled
  from the spec as resolving the job to the final resource, so a mutating
  call returns its final resource directly and polling is the identity.
-/

namespace CloudStackInstanceModel

/-- Python membership test `x in [y1, y2, ...]` over strings. -/
def pyIn (x : String) : List String → Bool
  | [] => false
  | y :: rest => if x = y then true else pyIn x rest

/-- Python `str.lower()`: lower-case every character. (Stated over the
character list so that it reduces definitionally, which the
well-founded-recursive `String.toLower` does not.) -/
def py_lower (s : String) : String := String.mk (s.data.map Char.toLower)

/-- A live virtual machine as reported by `listVirtualMachines` and
normalized by `get_instance` (`keypairs` is always a list after the
normalization at lines 602-607; `securitygroup` entries are reduced to
their `name` field, the only field the module reads). -/
structure Instance where
  id : String
  name : String
  displayname : String
  state : String
  keypairs : List String := []
  keypair : Option String := none
  securitygroup : List String := []
  hostname : Option String := none
deriving Repr, DecidableEq

/-- One record of `listServiceOfferings`. -/
structure ServiceOffering where
  id : String
  name : String
deriving Repr, DecidableEq

/-- One record of `listTemplates` / `listIsos`: the fields the module
reads (`displaytext` is optional on templates, accessed via `.get`). -/
structure BootImage where
  id : String
  name : String
  displaytext : Option String := none
  size : Nat := 0
  hypervisor : Option String := none
deriving Repr, DecidableEq

/-- One record of `listNetworks`. -/
structure Net where
  id : String
  name : String
  displaytext : String
deriving Repr, DecidableEq

/-- A record with a name and an id (`listHosts`, `listClusters`,
`listPods`). -/
structure NamedRec where
  id : String
  name : String
deriving Repr, DecidableEq

/-- The single ROOT volume returned by `listVolumes` for the instance
(`[volume] = res["volume"]`, line 894); `size` is in bytes. -/
structure Volume where
  id : String
  size : Nat
deriving Repr, DecidableEq

/-- One entry of the `ip_to_networks` parameter. -/
structure IpToNet where
  network : String
  ip : String
deriving Repr, DecidableEq

/-- An `ip_to_networks` entry with its resolved `networkid`
(`dict(networkid=ids[i], **data)`, line 659). -/
structure IpToNetResolved where
  networkid : String
  network : String
  ip : String
deriving Repr, DecidableEq

/-- `module.params` of the module (the subset the embedded code reads),
plus `module.check_mode` and the externally resolved scope values
(`get_zone` / `get_account` / `get_domain` / `get_project` are base-class
scope resolvers per the spec and are modelled as already-resolved values).
Structured `details` / `user_data_details` / keyboard / static-IP fields
are pure pass-through arguments not read by any claim and are omitted. -/
structure Params where
  name : Option String := none
  display_name : Option String := none
  group : Option String := none
  service_offering : Option String := none
  template : Option String := none
  iso : Option String := none
  networks : Option (List String) := none
  ip_to_networks : Option (List IpToNet) := none
  disk_offering : Option String := none
  disk_size : Option Nat := none
  root_disk_size : Option Nat := none
  security_groups : Option (List String) := none
  host : Option String := none
  cluster : Option String := none
  pod : Option String := none
  ssh_keys : Option (List String) := none
  affinity_groups : Option (List String) := none
  user_data : Option String := none
  user_data_name : Option String := none
  hypervisor : Option String := none
  force : Bool := false
  allow_root_disk_shrink : Bool := false
  poll_async : Bool := true
  check_mode : Bool := false
  zoneid : String := "zone-1"
  accountName : Option String := none
  domainId : Option String := none
  projectId : Option String := none
deriving Repr, DecidableEq

/-- The control plane's listing state: what the read-only `query_api`
calls would return. `b64encode` abstracts the base64 encoding applied by
`get_user_data`; `deployResult` is the resource a successful
`deployVirtualMachine` job resolves to (modelled from the spec's job
poller). -/
structure Env where
  serviceOfferings : List ServiceOffering := []
  templates : List BootImage := []
  isos : List BootImage := []
  networks : List Net := []
  hosts : List NamedRec := []
  clusters : List NamedRec := []
  pods : List NamedRec := []
  sshKeyPairs : List (String × String) := []
  diskOfferings : List (String × String) := []
  userDataRecords : List (String × String) := []
  firstHypervisor : String := "KVM"
  b64encode : String → String := id
  deployResult : Instance := { id := "", name := "", displayname := "", state := "Running" }

/-- `args_instance_update` of `update_instance` (lines 860-873): the
attribute-update argument set for `updateVirtualMachine`, extended with
`securitygroupnames` when the security-group axis fires (line 936). -/
structure UpdateArgs where
  id : String
  userdata : Option String := none
  userdataid : Option String := none
  ostypeid : Option String := none
  group : Option String := none
  displayname : Option String := none
  securitygroupnames : Option String := none
deriving Repr, DecidableEq

/-- `args_volume_update` of `update_instance` (lines 881-903): the
`resizeVolume` argument set. -/
structure VolumeArgs where
  id : String := ""
  size : Nat := 0
  shrinkok : Option Bool := none
deriving Repr, DecidableEq

/-- The `deployVirtualMachine` argument set assembled by
`deploy_instance` (lines 804-839). -/
structure DeployArgs where
  templateid : Option String := none
  zoneid : String := ""
  serviceofferingid : String := ""
  account : Option String := none
  domainid : Option String := none
  projectid : Option String := none
  diskofferingid : Option String := none
  networkids : Option String := none
  iptonetworklist : Option (List IpToNetResolved) := none
  userdata : Option String := none
  userdataid : Option String := none
  name : Option String := none
  displayname : Option String := none
  group : Option String := none
  keypairs : Option (List String) := none
  size : Option Nat := none
  startvm : Bool := true
  rootdisksize : Option Nat := none
  affinitygroupnames : Option (List String) := none
  securitygroupnames : Option (List String) := none
  hostid : Option String := none
  clusterid : Option String := none
  podid : Option String := none
  hypervisor : Option String := none
deriving Repr, DecidableEq

/-- The operations of the `instance` module that mutate control-plane
state, with the arguments the claims inspect. -/
inductive Op where
  | stopVM (id : String)
  | startVM (id : String) (hostid : Option String)
  | rebootVM (id : String)
  | recoverVM (id : String)
  | destroyVM (id : String) (expunge : Bool)
  | changeServiceForVM (id : String) (serviceofferingid : Option String)
  | updateVM (args : UpdateArgs)
  | resetSSHKeyForVM (id : String) (projectid : Option String) (keypairs : Option (List String))
  | resizeVolume (args : VolumeArgs)
  | deployVM (args : DeployArgs)
  | migrateVM (virtualmachineid : String) (hostid : Option String)
deriving Repr, DecidableEq

/-- The observable side effects of one invocation: the mutating calls
issued in order, the `changed` flag of the result, and the warnings
(recorded by instance name). -/
structure RunState where
  ops : List Op := []
  changed : Bool := false
  warnings : List String := []
deriving Repr, DecidableEq

/-- The run state at the start of an invocation. -/
def initial_run_state : RunState := {}

/-- `listSSHKeyPairs` scoped lookup by name: the fingerprint of the first
key pair with the given name, if any (`get_ssh_keypair`, lines 662-674,
with `key="fingerprint"`). -/
def lookup_ssh_fingerprint (env : Env) (name : String) : Option String :=
  (env.sshKeyPairs.find? (fun kv => kv.fst = name)).map (fun kv => kv.snd)

/-- `[self.get_ssh_keypair(key="fingerprint", name=k) for k in ssh_keys]`
(line 683): resolve every desired key name to its fingerprint, failing on
the first missing one (`fail_on_missing=True`). -/
def resolve_desired_fingerprints (env : Env) : List String → Except String (List String)
  | [] => Except.ok []
  | k :: rest =>
    match lookup_ssh_fingerprint env k with
    | some fp =>
      match resolve_desired_fingerprints env rest with
      | Except.ok fps => Except.ok (fp :: fps)
      | Except.error e => Except.error e
    | none => Except.error ("SSH key not found: " ++ k)

/-- The live key list `ssh_keys_changed` iterates (line 681):
`self.instance.get("keypairs") or [self.instance.get("keypair") or ""]` —
the normalized `keypairs` list, or, when that list is empty, the
one-element fallback holding `keypair` or the empty string. -/
def effective_live_keys (inst : Instance) : List String :=
  if inst.keypairs ≠ [] then inst.keypairs else [inst.keypair.getD ""]

/-- The `for instance_ssh_key in instance_ssh_keys:` loop of
`ssh_keys_changed` (lines 685-698): early-returns `true` when the desired
list is empty, when a live key's fingerprint does not resolve to a truthy
value, or when it is not among the desired fingerprints. -/
def ssh_keys_loop (env : Env) (ssh_keys param_fps : List String) :
    List String → Bool
  | [] => false
  | ik :: rest =>
    if ssh_keys = [] then true
    else
      let fp := (lookup_ssh_fingerprint env ik).getD ""
      if fp = "" then true
      else if pyIn fp param_fps then ssh_keys_loop env ssh_keys param_fps rest
      else true

/-- `AnsibleCloudStackInstance.ssh_keys_changed` (lines 676-698). -/
def ssh_keys_changed (env : Env) (p : Params) (inst : Instance) :
    Except String Bool :=
  match p.ssh_keys with
  | none => Except.ok false
  | some ssh_keys =>
    let instance_ssh_keys := effective_live_keys inst
    match resolve_desired_fingerprints env ssh_keys with
    | Except.error e => Except.error e
    | Except.ok param_ssh_key_fingerprints =>
      Except.ok (ssh_keys_loop env ssh_keys param_ssh_key_fingerprints instance_ssh_keys)

/-- Second loop of `security_groups_changed` (lines 715-717): scan the
desired (lowered) groups, early-returning `true` on one missing from the
collected live names. -/
def sg_desired_loop (instance_security_group_names : List String) :
    List String → Bool
  | [] => false
  | sg :: rest =>
    if pyIn sg instance_security_group_names then
      sg_desired_loop instance_security_group_names rest
    else true

/-- First loop of `security_groups_changed` (lines 709-713): scan the
live groups, early-returning `true` on one missing from the desired set,
and accumulating the lowered live names; when it completes, fall through
to the second loop over the desired groups. -/
def sg_live_loop (security_groups : List String) :
    List String → List String → Bool
  | [], acc => sg_desired_loop acc security_groups
  | g :: rest, acc =>
    if pyIn (py_lower g) security_groups then sg_live_loop security_groups rest (acc ++ [py_lower g])
    else true

/-- `AnsibleCloudStackInstance.security_groups_changed` (lines 700-718). -/
def security_groups_changed (p : Params) (inst : Instance) : Bool :=
  match p.security_groups with
  | none => false
  | some sgs =>
    let security_groups := sgs.map py_lower
    let instance_security_groups := inst.securitygroup
    sg_live_loop security_groups instance_security_groups []

/-- The root-disk-size axis of `update_instance` (lines 881-905): when
`root_disk_size` is given, the ROOT volume's byte size is converted to
GiB by a 30-bit right shift and compared, and the `resizeVolume`
arguments are prepared (`listVolumes` itself is a read and its single
ROOT volume is taken as input). When the parameter is unset the argument
set stays empty and the axis is `false`. -/
def root_disk_volume_check (p : Params) (volume : Volume) : Bool × VolumeArgs :=
  match p.root_disk_size with
  | none => (false, {})
  | some root_disk_size =>
    let size := volume.size >>> 30
    let args : VolumeArgs :=
      { id := volume.id
        size := root_disk_size
        shrinkok := if p.allow_root_disk_shrink then some true else none }
    (root_disk_size != size, args)

/-- Python truthiness of the `root_disk_size` parameter
(`if rootdisksize and ...`, line 559): set and non-zero. -/
def rootdisksize_truthy (o : Option Nat) : Bool :=
  match o with
  | some n => n != 0
  | none => false

/-- Whether the requested template name matches a candidate
(`template in [t.get("displaytext", None), t["name"], t["id"]]`,
line 558). -/
def template_name_matches (tname : String) (t : BootImage) : Prop :=
  t.displaytext = some tname ∨ tname = t.name ∨ tname = t.id

instance (tname : String) (t : BootImage) : Decidable (template_name_matches tname t) := by
  unfold template_name_matches; infer_instance

/-- The template scan of `get_template_or_iso` (lines 556-562): first
candidate matching the name whose size does not disqualify it; a
candidate whose size exceeds `rootdisksize * 1024 ** 3` bytes is skipped
when `rootdisksize` is truthy. -/
def find_template (tname : String) (rootdisksize : Option Nat) :
    List BootImage → Option BootImage
  | [] => none
  | t :: rest =>
    if template_name_matches tname t then
      if rootdisksize_truthy rootdisksize ∧ t.size > rootdisksize.getD 0 * 1024 ^ 3 then
        find_template tname rootdisksize rest
      else some t
    else find_template tname rootdisksize rest

/-- The `more_info` suffix of the template not-found message
(lines 564-567). -/
def template_size_suffix (rootdisksize : Option Nat) : String :=
  if rootdisksize_truthy rootdisksize then
    " (with size <= " ++ toString (rootdisksize.getD 0) ++ ")"
  else ""

/-- `AnsibleCloudStackInstance.get_template_or_iso` (lines 532-584),
returning the resolved record. The per-invocation memoization
(`self.template` / `self.iso`) is not modelled: the function is pure, so
repeated resolution returns the identical record as the spec requires.
The ISO scan (lines 577-582) matches on display text, name or id and
applies no size filter. -/
def get_template_or_iso (env : Env) (p : Params) :
    Except String (Option BootImage) :=
  if p.template = none ∧ p.iso = none then Except.ok none
  else
    match p.template with
    | some tname =>
      match find_template tname p.root_disk_size env.templates with
      | some t => Except.ok (some t)
      | none =>
        Except.error
          ("Template " ++ tname ++ " not found" ++ template_size_suffix p.root_disk_size)
    | none =>
      match p.iso with
      | some iname =>
        match env.isos.find?
            (fun i => i.displaytext = some iname || iname = i.name || iname = i.id) with
        | some i => Except.ok (some i)
        | none => Except.error ("ISO " ++ iname ++ " not found")
      | none => Except.ok none

/-- `AnsibleCloudStackInstance.get_service_offering_id` (lines 474-485):
first offering when the parameter is unset, else the first offering
matching by name or id; not-found (and an empty listing) is fatal. -/
def get_service_offering_id (env : Env) (p : Params) : Except String String :=
  match env.serviceOfferings with
  | [] =>
    Except.error ("Service offering " ++ p.service_offering.getD "None" ++ " not found")
  | s0 :: _ =>
    match p.service_offering with
    | none => Except.ok s0.id
    | some so =>
      match env.serviceOfferings.find? (fun s => so = s.name || so = s.id) with
      | some s => Except.ok s.id
      | none => Except.error ("Service offering " ++ so ++ " not found")

/-- `AnsibleCloudStackInstance.get_host_id` (lines 487-502): `none` when
the `host` parameter is unset, else the id of the first routing host
matching by name or id; not-found is fatal. -/
def get_host_id (env : Env) (p : Params) : Except String (Option String) :=
  match p.host with
  | none => Except.ok none
  | some host_name =>
    match env.hosts.find? (fun h => host_name = h.name || host_name = h.id) with
    | some h => Except.ok (some h.id)
    | none => Except.error ("Host " ++ host_name ++ " not found")

/-- `AnsibleCloudStackInstance.get_cluster_id` (lines 504-516). -/
def get_cluster_id (env : Env) (p : Params) : Except String (Option String) :=
  match p.cluster with
  | none => Except.ok none
  | some cluster_name =>
    match env.clusters.find? (fun c => cluster_name = c.name || cluster_name = c.id) with
    | some c => Except.ok (some c.id)
    | none => Except.error ("Cluster " ++ cluster_name ++ " not found")

/-- `AnsibleCloudStackInstance.get_pod_id` (lines 518-530). -/
def get_pod_id (env : Env) (p : Params) : Except String (Option String) :=
  match p.pod with
  | none => Except.ok none
  | some pod_name =>
    match env.pods.find? (fun d => pod_name = d.name || pod_name = d.id) with
    | some d => Except.ok (some d.id)
    | none => Except.error ("Pod " ++ pod_name ++ " not found")

/-- `AnsibleCloudStackInstance.get_user_data_id_by_name` (lines 614-634):
`none` when the `user_data_name` parameter is unset, else the id of the
first user-data record matching by name or id; not-found is fatal (the
Python message interpolates the raw listing; the name is used here). -/
def get_user_data_id_by_name (env : Env) (p : Params) : Except String (Option String) :=
  match p.user_data_name with
  | none => Except.ok none
  | some name =>
    match env.userDataRecords.find? (fun v => name = v.fst || name = v.snd) with
    | some v => Except.ok (some v.snd)
    | none => Except.error "User data not found"

/-- `AnsibleCloudStackInstance.get_user_data` (lines 770-774): the
`user_data` parameter, base64-encoded (encoding abstracted by
`Env.b64encode`). -/
def get_user_data (env : Env) (p : Params) : Option String :=
  p.user_data.map env.b64encode

/-- Modelled from the spec: `get_disk_offering` of the base class is not
under `src/`; per the spec's Desired-State Builder it resolves the
optional `disk_offering` name to a disk offering id, failing with a
not-found error when the given name is absent from the listing. -/
def get_disk_offering_id (env : Env) (p : Params) : Except String (Option String) :=
  match p.disk_offering with
  | none => Except.ok none
  | some name =>
    match env.diskOfferings.find? (fun kv => name = kv.fst || name = kv.snd) with
    | some kv => Except.ok (some kv.snd)
    | none => Except.error ("Disk offering " ++ name ++ " not found")

/-- Modelled from the spec: `get_hypervisor` of the base class is not
under `src/`; per the module documentation it is the `hypervisor`
parameter, or the first hypervisor found when unset. -/
def get_hypervisor (env : Env) (p : Params) : String :=
  p.hypervisor.getD env.firstHypervisor

/-- `AnsibleCloudStackInstance.get_network_ids` (lines 720-750): `none`
for an unset or empty name list (Python `if not network_names`), else
the ids of the first match of each name against display text, name or
id; an empty listing and an incomplete match set are fatal. -/
def get_network_ids (env : Env) (network_names : Option (List String)) :
    Except String (Option (List String)) :=
  match network_names with
  | none => Except.ok none
  | some [] => Except.ok none
  | some names =>
    if env.networks = [] then Except.error "No networks available"
    else
      let found := names.filterMap
        (fun network_name => env.networks.find?
          (fun n => network_name = n.displaytext || network_name = n.name || network_name = n.id))
      if found.length ≠ names.length then
        Except.error
          ("Could not find all networks, networks list found: "
            ++ String.intercalate "," (found.map (fun n => n.name)))
      else Except.ok (some (found.map (fun n => n.id)))

/-- Python truthiness of the `networks` parameter as tested by the
mutual-exclusion guard (`self.module.params.get("networks")`, line 652). -/
def networks_truthy (p : Params) : Bool :=
  match p.networks with
  | some (_ :: _) => true
  | _ => false

/-- `AnsibleCloudStackInstance.get_iptonetwork_mappings` (lines 647-660):
`none` when the parameter is unset; fails when the mapping list is
non-empty and the `networks` parameter is truthy (mutual exclusion);
otherwise resolves each mapping's network name and zips in the ids. -/
def get_iptonetwork_mappings (env : Env) (p : Params) :
    Except String (Option (List IpToNetResolved)) :=
  match p.ip_to_networks with
  | none => Except.ok none
  | some network_mappings =>
    if network_mappings ≠ [] ∧ networks_truthy p then
      Except.error "networks and ip_to_networks are mutually exclusive."
    else
      match get_network_ids env (some (network_mappings.map (fun m => m.network))) with
      | Except.error e => Except.error e
      | Except.ok none => Except.ok (some [])
      | Except.ok (some ids) =>
        Except.ok (some ((ids.zip network_mappings).map
          (fun pr => { networkid := pr.fst, network := pr.snd.network, ip := pr.snd.ip })))

/-- Body of `AnsibleCloudStackInstance.stop_instance` (lines 1027-1042)
for a present instance: no-op when already stopping/stopped; when
starting/running, set `changed` and, outside check mode, issue
`stopVirtualMachine` (the job resolving to the instance in `Stopped`
state); any other state falls through unchanged. -/
def stop_instance_core (p : Params) (inst : Instance) (s : RunState) :
    Instance × RunState :=
  if py_lower inst.state = "stopping" ∨ py_lower inst.state = "stopped" then (inst, s)
  else if py_lower inst.state = "starting" ∨ py_lower inst.state = "running" then
    let s1 := { s with changed := true }
    if p.check_mode then (inst, s1)
    else ({ inst with state := "Stopped" }, { s1 with ops := s1.ops ++ [Op.stopVM inst.id] })
  else (inst, s)

/-- `AnsibleCloudStackInstance.stop_instance` (lines 1027-1042); the
instance may be absent in check mode. -/
def stop_instance (p : Params) (inst? : Option Instance) (s : RunState) :
    Option Instance × RunState :=
  match inst? with
  | none => (none, s)
  | some inst =>
    let (i, s1) := stop_instance_core p inst s
    (some i, s1)

/-- Body of `AnsibleCloudStackInstance.start_instance` (lines 1044-1063)
for a present instance: no-op when already starting/running; when
stopped/stopping, set `changed` and, outside check mode, resolve the
optional host pin and issue `startVirtualMachine` (the job resolving to
the instance in `Running` state); any other state falls through
unchanged. Host resolution can fail. -/
def start_instance_core (env : Env) (p : Params) (inst : Instance) (s : RunState) :
    Except String Instance × RunState :=
  if py_lower inst.state = "starting" ∨ py_lower inst.state = "running" then
    (Except.ok inst, s)
  else if py_lower inst.state = "stopped" ∨ py_lower inst.state = "stopping" then
    let s1 := { s with changed := true }
    if p.check_mode then (Except.ok inst, s1)
    else
      match get_host_id env p with
      | Except.error e => (Except.error e, s1)
      | Except.ok hostid =>
        (Except.ok { inst with state := "Running" },
          { s1 with ops := s1.ops ++ [Op.startVM inst.id hostid] })
  else (Except.ok inst, s)

/-- `AnsibleCloudStackInstance.start_instance` (lines 1044-1063); the
instance may be absent in check mode. -/
def start_instance (env : Env) (p : Params) (inst? : Option Instance) (s : RunState) :
    Except String (Option Instance) × RunState :=
  match inst? with
  | none => (Except.ok none, s)
  | some inst =>
    match start_instance_core env p inst s with
    | (Except.ok i, s1) => (Except.ok (some i), s1)
    | (Except.error e, s1) => (Except.error e, s1)

/-- `AnsibleCloudStackInstance.expunge_instance` (lines 1008-1025): when
an instance exists, a destroying/destroyed state — and, by the following
`elif`, any state other than expunging — sets `changed` and, outside
check mode, issues `destroyVirtualMachine` with `expunge=True`; the
trailing poll is a read. The instance value is returned unchanged. -/
def expunge_instance (p : Params) (inst? : Option Instance) (s : RunState) :
    Option Instance × RunState :=
  match inst? with
  | none => (none, s)
  | some inst =>
    let s1 :=
      if py_lower inst.state = "destroying" ∨ py_lower inst.state = "destroyed" then
        let s1 := { s with changed := true }
        if p.check_mode then s1
        else { s1 with ops := s1.ops ++ [Op.destroyVM inst.id true] }
      else if ¬(py_lower inst.state = "expunging") then
        let s1 := { s with changed := true }
        if p.check_mode then s1
        else { s1 with ops := s1.ops ++ [Op.destroyVM inst.id true] }
      else s
    (some inst, s1)

/-- `AnsibleCloudStackInstance.absent_instance` (lines 995-1006). -/
def absent_instance (p : Params) (inst? : Option Instance) (s : RunState) :
    Option Instance × RunState :=
  match inst? with
  | none => (none, s)
  | some inst =>
    if ¬(py_lower inst.state = "expunging" ∨ py_lower inst.state = "destroying"
        ∨ py_lower inst.state = "destroyed") then
      let s1 := { s with changed := true }
      if p.check_mode then (some inst, s1)
      else (some { inst with state := "Destroyed" },
        { s1 with ops := s1.ops ++ [Op.destroyVM inst.id false] })
    else (some inst, s)

/-- `AnsibleCloudStackInstance.recover_instance` (lines 987-993). -/
def recover_instance (p : Params) (inst : Instance) (s : RunState) :
    Instance × RunState :=
  if py_lower inst.state = "destroying" ∨ py_lower inst.state = "destroyed" then
    let s1 := { s with changed := true }
    if p.check_mode then (inst, s1)
    else ({ inst with state := "Stopped" }, { s1 with ops := s1.ops ++ [Op.recoverVM inst.id] })
  else (inst, s)

/-- The apply-phase of `AnsibleCloudStackInstance.update_instance`
(lines 907-985), taking as inputs the five change-axis booleans and the
prepared argument sets computed by the preceding lines (850-905): the
service-offering and attribute axes come from the base-class
`has_changed` comparison, the SSH-key, security-group and root-disk axes
from `ssh_keys_changed`, `security_groups_changed` and
`root_disk_volume_check` of this file. When an axis fired and the gate
(state stopped, or `force`) is open, outside check mode the operations
run in the source's order: stop (a no-op for a non-running instance),
service-offering change, `updateVirtualMachine` (with
`securitygroupnames` joined in when that axis fired), SSH-key reset,
volume resize, and a restart when the state before the cycle was
`running` and `start_vm` is set. Otherwise a warning is recorded. Host
migration (lines 966-984) follows independently. -/
def update_instance_apply (env : Env) (p : Params) (inst : Instance)
    (service_offering_changed instance_changed security_groups_changed
      ssh_keys_changed root_disk_size_changed : Bool)
    (args_service_offering_id : Option String)
    (args_instance_update : UpdateArgs) (args_volume_update : VolumeArgs)
    (start_vm : Bool) (s : RunState) : Except String Instance × RunState :=
  let instance_state := py_lower inst.state
  let step1 : Except String Instance × RunState :=
    if service_offering_changed || instance_changed || security_groups_changed ||
        ssh_keys_changed || root_disk_size_changed then
      if instance_state = "stopped" ∨ p.force = true then
        let s1 := { s with changed := true }
        if p.check_mode then (Except.ok inst, s1)
        else
          let (inst1, s2) := stop_instance_core p inst s1
          let (inst2, s3) :=
            if service_offering_changed then
              (inst1, { s2 with ops := s2.ops ++
                [Op.changeServiceForVM inst.id args_service_offering_id] })
            else (inst1, s2)
          let (inst3, s4) :=
            if instance_changed || security_groups_changed then
              let sg_names := String.intercalate "," (p.security_groups.getD [])
              let args2 :=
                if security_groups_changed then
                  { args_instance_update with securitygroupnames := some sg_names }
                else args_instance_update
              (inst2, { s3 with ops := s3.ops ++ [Op.updateVM args2] })
            else (inst2, s3)
          let (inst4, s5) :=
            if ssh_keys_changed then
              (inst3, { s4 with ops := s4.ops ++
                [Op.resetSSHKeyForVM inst3.id p.projectId p.ssh_keys] })
            else (inst3, s4)
          let s6 :=
            if root_disk_size_changed then
              { s5 with ops := s5.ops ++ [Op.resizeVolume args_volume_update] }
            else s5
          if instance_state = "running" ∧ start_vm = true then
            start_instance_core env p inst4 s6
          else (Except.ok inst4, s6)
      else
        (Except.ok inst, { s with warnings := s.warnings ++ [inst.name] })
    else (Except.ok inst, s)
  match step1 with
  | (Except.error e, s7) => (Except.error e, s7)
  | (Except.ok inst5, s7) =>
    if (py_lower inst5.state = "starting" ∨ py_lower inst5.state = "running")
        ∧ inst5.hostname ≠ none ∧ p.host ≠ none ∧ p.host ≠ inst5.hostname then
      let s8 := { s7 with changed := true }
      match get_host_id env p with
      | Except.error e => (Except.error e, s8)
      | Except.ok hostid =>
        if p.check_mode then (Except.ok inst5, s8)
        else (Except.ok inst5, { s8 with ops := s8.ops ++ [Op.migrateVM inst5.id hostid] })
    else (Except.ok inst5, s7)

/-- `AnsibleCloudStackInstance.deploy_instance` (lines 798-848): marks
`changed`, assembles the `deployVirtualMachine` arguments in the
source's order — resolving networks, the boot source, the service
offering, the disk offering, the ip-to-network mappings (where the
mutual-exclusion guard lives), user data, and the placement hints, each
resolution fatal on failure — and, outside check mode, issues the
deployment, the job resolving to `Env.deployResult`. -/
def deploy_instance (env : Env) (p : Params) (start_vm : Bool) (s : RunState) :
    Except String (Option Instance) × RunState :=
  let s := { s with changed := true }
  match get_network_ids env p.networks with
  | Except.error e => (Except.error e, s)
  | Except.ok networkidsList =>
    let networkids := networkidsList.map (String.intercalate ",")
    match get_template_or_iso env p with
    | Except.error e => (Except.error e, s)
    | Except.ok timg =>
      let templateid := timg.map (fun t => t.id)
      if templateid = none then (Except.error "Template or ISO is required.", s)
      else
        match get_service_offering_id env p with
        | Except.error e => (Except.error e, s)
        | Except.ok serviceofferingid =>
          match get_disk_offering_id env p with
          | Except.error e => (Except.error e, s)
          | Except.ok diskofferingid =>
            match get_iptonetwork_mappings env p with
            | Except.error e => (Except.error e, s)
            | Except.ok iptonetworklist =>
              match get_user_data_id_by_name env p with
              | Except.error e => (Except.error e, s)
              | Except.ok userdataid =>
                match get_host_id env p with
                | Except.error e => (Except.error e, s)
                | Except.ok hostid =>
                  match get_cluster_id env p with
                  | Except.error e => (Except.error e, s)
                  | Except.ok clusterid =>
                    match get_pod_id env p with
                    | Except.error e => (Except.error e, s)
                    | Except.ok podid =>
                      let args : DeployArgs :=
                        { templateid := templateid
                          zoneid := p.zoneid
                          serviceofferingid := serviceofferingid
                          account := p.accountName
                          domainid := p.domainId
                          projectid := p.projectId
                          diskofferingid := diskofferingid
                          networkids := networkids
                          iptonetworklist := iptonetworklist
                          userdata := get_user_data env p
                          userdataid := userdataid
                          name := p.name
                          displayname := p.display_name.orElse (fun _ => p.name)
                          group := p.group
                          keypairs := p.ssh_keys
                          size := p.disk_size
                          startvm := start_vm
                          rootdisksize := p.root_disk_size
                          affinitygroupnames := p.affinity_groups
                          securitygroupnames := p.security_groups
                          hostid := hostid
                          clusterid := clusterid
                          podid := podid
                          hypervisor :=
                            match timg with
                            | some t =>
                              if t.hypervisor = none then some (get_hypervisor env p) else none
                            | none => none }
                      if p.check_mode then (Except.ok none, s)
                      else
                        (Except.ok (some env.deployResult),
                          { s with ops := s.ops ++ [Op.deployVM args] })

/-! ## General lemmas about the embedded helpers -/

theorem pyIn_iff (x : String) (l : List String) : pyIn x l = true ↔ x ∈ l := by
  induction l with
  | nil => simp [pyIn]
  | cons y rest ih =>
    by_cases h : x = y
    · simp [pyIn, h]
    · simp [pyIn, h, ih]

theorem pyIn_eq_false (x : String) (l : List String) : pyIn x l = false ↔ x ∉ l := by
  rw [← Bool.not_eq_true, pyIn_iff]

theorem effective_live_keys_ne_nil (inst : Instance) : effective_live_keys inst ≠ [] := by
  unfold effective_live_keys
  by_cases h : inst.keypairs = []
  · simp [h]
  · simp [h]

/-! ## C5: the root-disk-size axis -/

/-- C5: the root-disk-size axis is evaluated only when `root_disk_size`
is given; it converts the ROOT volume's byte size to GiB by a 30-bit
right shift, signals a change exactly when the desired GiB differs from
that value, and the prepared resize arguments carry the live volume's id
and the target size in GiB. -/
theorem c5_root_disk_size_axis (p : Params) (volume : Volume) :
    (p.root_disk_size = none → root_disk_volume_check p volume = (false, {})) ∧
    (∀ n, p.root_disk_size = some n →
      ((root_disk_volume_check p volume).fst = true ↔ n ≠ volume.size >>> 30) ∧
      (root_disk_volume_check p volume).snd.id = volume.id ∧
      (root_disk_volume_check p volume).snd.size = n) := by
  constructor
  · intro h
    simp [root_disk_volume_check, h]
  · intro n h
    refine ⟨?_, ?_, ?_⟩
    · simp [root_disk_volume_check, h, bne_iff_ne]
    · simp [root_disk_volume_check, h]
    · simp [root_disk_volume_check, h]

/-- C5 witness: a live ROOT volume of 21474836480 bytes (20 GiB) is
unchanged at desired size 20 and changed at desired size 25, and the
resize arguments carry the volume id and the target GiB. -/
theorem c5_root_disk_size_axis_witness :
    (root_disk_volume_check { root_disk_size := some 25 } { id := "vol-1", size := 21474836480 }).fst
      = true ∧
    (root_disk_volume_check { root_disk_size := some 20 } { id := "vol-1", size := 21474836480 }).fst
      = false ∧
    (root_disk_volume_check { root_disk_size := some 25 } { id := "vol-1", size := 21474836480 }).snd.id
      = "vol-1" ∧
    (root_disk_volume_check { root_disk_size := some 25 } { id := "vol-1", size := 21474836480 }).snd.size
      = 25 := by
  have h25 := c5_root_disk_size_axis { root_disk_size := some 25 } { id := "vol-1", size := 21474836480 }
  have h20 := c5_root_disk_size_axis { root_disk_size := some 20 } { id := "vol-1", size := 21474836480 }
  refine ⟨((h25.2 25 rfl).1).mpr (by decide), ?_, (h25.2 25 rfl).2.1, (h25.2 25 rfl).2.2⟩
  have hne : ¬((root_disk_volume_check { root_disk_size := some 20 }
      { id := "vol-1", size := 21474836480 }).fst = true) := by
    intro hc
    exact ((h20.2 20 rfl).1.mp hc) (by decide)
  exact Bool.eq_false_iff.mpr hne

/-! ## C8: start and stop are no-ops on already-satisfied states -/

/-- C8: `start_instance` on a live instance whose state is starting or
running returns it unchanged, with no control-plane call and no `changed`
flag; symmetrically `stop_instance` on a stopping or stopped instance. -/
theorem c8_start_stop_noop (env : Env) (p : Params) (inst : Instance) (s : RunState) :
    (py_lower inst.state = "starting" ∨ py_lower inst.state = "running" →
      start_instance env p (some inst) s = (Except.ok (some inst), s)) ∧
    (py_lower inst.state = "stopping" ∨ py_lower inst.state = "stopped" →
      stop_instance p (some inst) s = (some inst, s)) := by
  constructor
  · intro h
    simp [start_instance, start_instance_core, if_pos h]
  · intro h
    simp [stop_instance, stop_instance_core, if_pos h]

/-- A concrete running instance used by the C8 witness. -/
def inst_running_w : Instance := { id := "i-1", name := "web-1", displayname := "web-1", state := "Running" }

/-- A concrete stopped instance used by the C8 witness. -/
def inst_stopped_w : Instance := { id := "i-2", name := "db-1", displayname := "db-1", state := "Stopped" }

/-- C8 witness: a running instance is returned unchanged by
`start_instance`, a stopped one by `stop_instance`, in both cases with
the run state untouched. -/
theorem c8_start_stop_noop_witness :
    start_instance {} {} (some inst_running_w) initial_run_state =
      (Except.ok (some inst_running_w), initial_run_state) ∧
    stop_instance {} (some inst_stopped_w) initial_run_state =
      (some inst_stopped_w, initial_run_state) := by
  constructor
  · exact (c8_start_stop_noop {} {} inst_running_w initial_run_state).1 (by decide)
  · exact (c8_start_stop_noop {} {} inst_stopped_w initial_run_state).2 (by decide)

/-! ## C7: expunge issues exactly one destroy-with-expunge -/

/-- C7: under target state `expunged`, outside check mode, a live
instance in any state other than `expunging` (including destroyed and
destroying) triggers exactly one `destroyVirtualMachine` call with
`expunge=True`, with no recover step, and sets `changed`; an instance in
state `expunging`, or no instance at all, triggers no call and leaves
`changed` unset. -/
theorem c7_expunge_single_destroy (p : Params) (inst : Instance)
    (hcm : p.check_mode = false) :
    (¬ py_lower inst.state = "expunging" →
      expunge_instance p (some inst) initial_run_state =
        (some inst, { ops := [Op.destroyVM inst.id true], changed := true, warnings := [] })) ∧
    (py_lower inst.state = "expunging" →
      expunge_instance p (some inst) initial_run_state = (some inst, initial_run_state)) ∧
    expunge_instance p none initial_run_state = (none, initial_run_state) := by
  refine ⟨?_, ?_, rfl⟩
  · intro h
    by_cases hd : py_lower inst.state = "destroying" ∨ py_lower inst.state = "destroyed"
    · simp [expunge_instance, hd, hcm, initial_run_state]
    · simp [expunge_instance, hd, h, hcm, initial_run_state]
  · intro h
    have hd : ¬(py_lower inst.state = "destroying" ∨ py_lower inst.state = "destroyed") := by
      rw [h]; decide
    simp [expunge_instance, hd, h, initial_run_state]

/-- A concrete destroyed instance used by the C7 witness. -/
def inst_destroyed_w : Instance := { id := "i-3", name := "web-3", displayname := "web-3", state := "Destroyed" }

/-- A concrete expunging instance used by the C7 witness. -/
def inst_expunging_w : Instance := { id := "i-4", name := "db-4", displayname := "db-4", state := "Expunging" }

/-- C7 witness: a destroyed instance gets a single destroy-with-expunge
call and `changed`; an expunging instance gets none. -/
theorem c7_expunge_single_destroy_witness :
    expunge_instance {} (some inst_destroyed_w) initial_run_state =
      (some inst_destroyed_w,
        { ops := [Op.destroyVM "i-3" true], changed := true, warnings := [] }) ∧
    expunge_instance {} (some inst_expunging_w) initial_run_state =
      (some inst_expunging_w, initial_run_state) := by
  constructor
  · exact (c7_expunge_single_destroy {} inst_destroyed_w rfl).1 (by decide)
  · exact (c7_expunge_single_destroy {} inst_expunging_w rfl).2.1 (by decide)

/-! ## C10: empty desired keys against a key-less instance -/

/-- C10: for a live instance with no SSH keys at all (empty normalized
`keypairs`), desired `ssh_keys=[]` still reports a change: the empty live
key list falls back to the one-element list holding the `keypair` field
or the empty string, so the loop fires on its first iteration. -/
theorem c10_empty_keys_fallback (env : Env) (p : Params) (inst : Instance)
    (hk : p.ssh_keys = some []) (hlive : inst.keypairs = []) :
    ssh_keys_changed env p inst = Except.ok true ∧
    effective_live_keys inst = [inst.keypair.getD ""] := by
  have he : effective_live_keys inst = [inst.keypair.getD ""] := by
    simp [effective_live_keys, hlive]
  refine ⟨?_, he⟩
  simp [ssh_keys_changed, hk, he, resolve_desired_fingerprints, ssh_keys_loop]

/-- A concrete key-less stopped instance used by the C10 witness. -/
def inst_keyless_w : Instance := { id := "i-5", name := "web-5", displayname := "web-5", state := "Stopped" }

/-- C10 witness: an instance with neither `keypairs` entries nor a
`keypair` value reports a change against desired `ssh_keys=[]`. -/
theorem c10_empty_keys_fallback_witness :
    ssh_keys_changed {} { ssh_keys := some [] } inst_keyless_w = Except.ok true := by
  exact (c10_empty_keys_fallback {} { ssh_keys := some [] } inst_keyless_w rfl rfl).1

/-! ## C4: security-group comparison -/

theorem sg_desired_loop_false_iff (I D : List String) :
    sg_desired_loop I D = false ↔ ∀ d ∈ D, d ∈ I := by
  induction D with
  | nil => simp [sg_desired_loop]
  | cons d rest ih =>
    cases hb : pyIn d I with
    | true => simp [sg_desired_loop, hb, ih, (pyIn_iff d I).mp hb]
    | false => simp [sg_desired_loop, hb, (pyIn_eq_false d I).mp hb]

theorem sg_live_loop_eq (D live acc : List String) :
    sg_live_loop D live acc =
      (live.any (fun g => !(pyIn (py_lower g) D)) ||
        sg_desired_loop (acc ++ live.map py_lower) D) := by
  induction live generalizing acc with
  | nil => simp [sg_live_loop]
  | cons g rest ih =>
    cases hb : pyIn (py_lower g) D with
    | true => simp [sg_live_loop, hb, ih, List.append_assoc]
    | false => simp [sg_live_loop, hb]

/-- C4: `security_groups_changed` is `false` when the desired
`security_groups` parameter is unspecified; when specified, it is `false`
exactly when desired and live group names coincide as case-insensitive
sets (each a subset of the other), and `true` otherwise. -/
theorem c4_security_groups_set_equality (p : Params) (inst : Instance) :
    (p.security_groups = none → security_groups_changed p inst = false) ∧
    (∀ sgs, p.security_groups = some sgs →
      (security_groups_changed p inst = false ↔
        (∀ g ∈ inst.securitygroup, py_lower g ∈ sgs.map py_lower) ∧
        (∀ d ∈ sgs, py_lower d ∈ inst.securitygroup.map py_lower))) := by
  constructor
  · intro h
    simp [security_groups_changed, h]
  · intro sgs h
    simp only [security_groups_changed, h]
    rw [sg_live_loop_eq]
    simp only [List.nil_append, Bool.or_eq_false_iff]
    rw [sg_desired_loop_false_iff]
    constructor
    · rintro ⟨h1, h2⟩
      constructor
      · intro g hg
        have := List.any_eq_false.mp h1 g hg
        simpa [pyIn_iff] using this
      · intro d hd
        exact h2 (py_lower d) (List.mem_map_of_mem py_lower hd)
    · rintro ⟨h1, h2⟩
      constructor
      · rw [List.any_eq_false]
        intro g hg
        simpa [pyIn_iff] using h1 g hg
      · intro d hd
        obtain ⟨a, ha, rfl⟩ := List.mem_map.mp hd
        exact h2 a ha

/-- C4 witness: desired `["a", "B"]` against live `{"A", "b"}` is
unchanged; against live `{"A"}` it is changed. -/
theorem c4_security_groups_set_equality_witness :
    security_groups_changed { security_groups := some ["a", "B"] }
      { id := "i-6", name := "w", displayname := "w", state := "Running",
        securitygroup := ["A", "b"] } = false ∧
    security_groups_changed { security_groups := some ["a", "B"] }
      { id := "i-6", name := "w", displayname := "w", state := "Running",
        securitygroup := ["A"] } = true := by
  constructor
  · exact ((c4_security_groups_set_equality { security_groups := some ["a", "B"] }
      { id := "i-6", name := "w", displayname := "w", state := "Running",
        securitygroup := ["A", "b"] }).2 ["a", "B"] rfl).mpr (by decide)
  · have h := (c4_security_groups_set_equality { security_groups := some ["a", "B"] }
      { id := "i-6", name := "w", displayname := "w", state := "Running",
        securitygroup := ["A"] }).2 ["a", "B"] rfl
    have hne : ¬(security_groups_changed { security_groups := some ["a", "B"] }
        { id := "i-6", name := "w", displayname := "w", state := "Running",
          securitygroup := ["A"] } = false) := by
      intro hc
      have := (h.mp hc).2
      have hb := this "B" (by decide)
      revert hb
      decide
    simpa using hne

/-! ## C3: SSH-key comparison -/

theorem resolve_desired_fingerprints_eq (env : Env) (ks : List String)
    (h : ∀ k ∈ ks, (lookup_ssh_fingerprint env k).isSome) :
    resolve_desired_fingerprints env ks =
      Except.ok (ks.filterMap (lookup_ssh_fingerprint env)) := by
  induction ks with
  | nil => simp [resolve_desired_fingerprints]
  | cons k rest ih =>
    obtain ⟨fp, hfp⟩ := Option.isSome_iff_exists.mp (h k (by simp))
    have hrest := ih (fun x hx => h x (by simp [hx]))
    simp [resolve_desired_fingerprints, hfp, hrest, List.filterMap_cons]

theorem ssh_keys_loop_any (env : Env) (ks fps : List String) (hks : ks ≠ [])
    (l : List String) :
    ssh_keys_loop env ks fps l =
      l.any (fun ik => ((lookup_ssh_fingerprint env ik).getD "" = "") ||
        !(pyIn ((lookup_ssh_fingerprint env ik).getD "") fps)) := by
  induction l with
  | nil => simp [ssh_keys_loop]
  | cons ik rest ih =>
    by_cases h1 : (lookup_ssh_fingerprint env ik).getD "" = ""
    · simp [ssh_keys_loop, hks, h1]
    · cases h2 : pyIn ((lookup_ssh_fingerprint env ik).getD "") fps with
      | true => simp [ssh_keys_loop, hks, h1, h2, ih]
      | false => simp [ssh_keys_loop, hks, h1, h2]

/-- C3 counterexample: with desired `ssh_keys=[]` and a live instance
whose normalized key list is empty, the claim's case split predicts
`false` (its second clause needs at least one live key, and its
otherwise-clause quantifies over the live keys, of which there are
none), but `ssh_keys_changed` returns `true` because the empty live list
falls back to the one-element list holding the empty string. -/
theorem c3_counterexample_empty_live :
    ssh_keys_changed {} { ssh_keys := some [] }
      { id := "i-7", name := "web-7", displayname := "web-7", state := "Stopped" } =
      Except.ok true ∧
    Params.ssh_keys { ssh_keys := some [] } = some [] ∧
    Instance.keypairs
      { id := "i-7", name := "web-7", displayname := "web-7", state := "Stopped" } = [] ∧
    ¬ ∃ ik ∈ Instance.keypairs
        { id := "i-7", name := "web-7", displayname := "web-7", state := "Stopped" },
        (lookup_ssh_fingerprint {} ik).getD "" = "" ∨
        (lookup_ssh_fingerprint {} ik).getD "" ∉
          List.filterMap (lookup_ssh_fingerprint {}) [] := by
  refine ⟨rfl, rfl, rfl, ?_⟩
  simp

/-- C3 as amended: `ssh_keys_changed` is `false` when `ssh_keys` is
unspecified; it is `true` whenever `ssh_keys=[]` (even for a key-less
live instance, because the live key list is replaced by the one-element
fallback); and for a non-empty desired list whose names all resolve, it
is `true` exactly when some key of the effective live list — the
normalized `keypairs`, or the `keypair`-or-empty-string fallback when
that list is empty — has a fingerprint that does not resolve to a truthy
value or is not among the desired fingerprints. -/
theorem c3_amended_ssh_keys_fingerprints (env : Env) (p : Params) (inst : Instance) :
    (p.ssh_keys = none → ssh_keys_changed env p inst = Except.ok false) ∧
    (p.ssh_keys = some [] → ssh_keys_changed env p inst = Except.ok true) ∧
    (∀ keys, p.ssh_keys = some keys → keys ≠ [] →
      (∀ k ∈ keys, (lookup_ssh_fingerprint env k).isSome) →
      (ssh_keys_changed env p inst = Except.ok true ↔
        ∃ ik ∈ effective_live_keys inst,
          (lookup_ssh_fingerprint env ik).getD "" = "" ∨
          (lookup_ssh_fingerprint env ik).getD "" ∉
            keys.filterMap (lookup_ssh_fingerprint env))) := by
  refine ⟨?_, ?_, ?_⟩
  · intro h
    simp [ssh_keys_changed, h]
  · intro h
    obtain ⟨a, as, he⟩ := List.exists_cons_of_ne_nil (effective_live_keys_ne_nil inst)
    simp [ssh_keys_changed, h, resolve_desired_fingerprints, he, ssh_keys_loop]
  · intro keys hk hne hres
    simp only [ssh_keys_changed, hk, resolve_desired_fingerprints_eq env keys hres]
    rw [ssh_keys_loop_any env keys _ hne]
    rw [Except.ok.injEq]
    rw [List.any_eq_true]
    constructor
    · rintro ⟨ik, hik, hcond⟩
      refine ⟨ik, hik, ?_⟩
      rcases Bool.or_eq_true_iff.mp hcond with hc | hc
      · exact Or.inl (by simpa using hc)
      · refine Or.inr ?_
        have := Bool.not_eq_true' .. |>.mp hc
        exact (pyIn_eq_false _ _).mp this
    · rintro ⟨ik, hik, hcond⟩
      refine ⟨ik, hik, ?_⟩
      rcases hcond with hc | hc
      · exact Bool.or_eq_true_iff.mpr (Or.inl (by simpa using hc))
      · refine Bool.or_eq_true_iff.mpr (Or.inr ?_)
        exact (Bool.not_eq_true' ..).mpr ((pyIn_eq_false _ _).mpr hc)

/-- A concrete environment for the C3 witness: one resolvable desired
key, and a live instance carrying a key that no longer resolves. -/
def env_c3w : Env := { sshKeyPairs := [("key-at-work", "aa:bb")] }

/-- The live instance for the C3 witness. -/
def inst_c3w : Instance := { id := "i-8", name := "web-8", displayname := "web-8", state := "Stopped", keypairs := ["gone-key"] }

/-- C3 witness: desired `["key-at-work"]` (resolvable) against a live
instance holding a deleted key reports a change. -/
theorem c3_amended_ssh_keys_fingerprints_witness :
    ssh_keys_changed env_c3w { ssh_keys := some ["key-at-work"] } inst_c3w =
      Except.ok true := by
  exact ((c3_amended_ssh_keys_fingerprints env_c3w
      { ssh_keys := some ["key-at-work"] } inst_c3w).2.2 ["key-at-work"] rfl
      (by decide) (by decide)).mpr (by decide)

/-! ## C6: boot-source resolution under a root-disk-size constraint -/

theorem find_template_filter_eq (tname : String) (n : Nat) (hn : n ≠ 0)
    (ts : List BootImage) :
    find_template tname (some n) ts =
      find_template tname (some n) (ts.filter fun t => decide (t.size ≤ n * 1024 ^ 3)) := by
  induction ts with
  | nil => rfl
  | cons t rest ih =>
    have hfil : List.filter (fun t => decide (t.size ≤ n * 1024 ^ 3)) (t :: rest) =
        if t.size ≤ n * 1024 ^ 3 then
          t :: List.filter (fun t => decide (t.size ≤ n * 1024 ^ 3)) rest
        else List.filter (fun t => decide (t.size ≤ n * 1024 ^ 3)) rest := by
      by_cases hs : t.size ≤ n * 1024 ^ 3 <;> simp [List.filter_cons, hs]
    rw [hfil]
    by_cases hs : t.size ≤ n * 1024 ^ 3
    · rw [if_pos hs]
      by_cases hm : template_name_matches tname t
      · have hc : ¬(rootdisksize_truthy (some n) = true ∧
            t.size > (some n : Option Nat).getD 0 * 1024 ^ 3) := by
          rintro ⟨-, hgt⟩
          simp only [Option.getD_some] at hgt
          omega
        rw [find_template, find_template, if_pos hm, if_pos hm, if_neg hc, if_neg hc]
      · rw [find_template, find_template, if_neg hm, if_neg hm]
        exact ih
    · rw [if_neg hs]
      by_cases hm : template_name_matches tname t
      · have hc : rootdisksize_truthy (some n) = true ∧
            t.size > (some n : Option Nat).getD 0 * 1024 ^ 3 := by
          refine ⟨by simp [rootdisksize_truthy, hn], ?_⟩
          simp only [Option.getD_some]
          omega
        rw [find_template, if_pos hm, if_pos hc]
        exact ih
      · rw [find_template, if_neg hm]
        exact ih

theorem find_template_none_of_no_fit (tname : String) (n : Nat) (hn : n ≠ 0)
    (ts : List BootImage)
    (h : ∀ t ∈ ts, ¬(template_name_matches tname t ∧ t.size ≤ n * 1024 ^ 3)) :
    find_template tname (some n) ts = none := by
  induction ts with
  | nil => rfl
  | cons t rest ih =>
    have hrest := ih (fun x hx => h x (by simp [hx]))
    by_cases hm : template_name_matches tname t
    · have hs : ¬ t.size ≤ n * 1024 ^ 3 := fun hs => h t (by simp) ⟨hm, hs⟩
      have hc : rootdisksize_truthy (some n) = true ∧
          t.size > (some n : Option Nat).getD 0 * 1024 ^ 3 := by
        refine ⟨by simp [rootdisksize_truthy, hn], ?_⟩
        simp only [Option.getD_some]
        omega
      rw [find_template, if_pos hm, if_pos hc]
      exact hrest
    · rw [find_template, if_neg hm]
      exact hrest

/-- The oversized ISO of the C6 counterexample: 100 GiB reported size. -/
def iso_big_c6 : BootImage := { id := "iso-1", name := "debian-big", displaytext := some "Debian big", size := 107374182400 }

/-- The oversized template of the C6 counterexample: 5 GiB reported size. -/
def tpl_big_c6 : BootImage := { id := "tpl-1", name := "tpl-big", displaytext := some "Template big", size := 5368709120 }

/-- The listing environment of the C6 counterexample. -/
def env_c6 : Env := { templates := [tpl_big_c6], isos := [iso_big_c6] }

/-- C6 counterexample: the claim covers both boot-source kinds and every
given constraint, but (a) ISO resolution ignores the root-disk-size
constraint entirely — a 100 GiB ISO is selected under a 1 GiB
constraint instead of being skipped and failing — and (b) template
resolution ignores a constraint of 0 (Python falsiness), selecting a
5 GiB template whose size exceeds `0 * 2^30`. -/
theorem c6_counterexample_iso_and_zero :
    get_template_or_iso env_c6 { iso := some "debian-big", root_disk_size := some 1 } =
      Except.ok (some iso_big_c6) ∧
    iso_big_c6.size > 1 * 1024 ^ 3 ∧
    get_template_or_iso env_c6 { template := some "tpl-big", root_disk_size := some 0 } =
      Except.ok (some tpl_big_c6) ∧
    tpl_big_c6.size > 0 * 1024 ^ 3 := by
  refine ⟨rfl, by decide, rfl, by decide⟩

/-- C6 as amended: for template resolution with a positive root-disk-size
constraint, every candidate whose reported byte size exceeds the
constraint times `2^30` is silently skipped (resolution over the full
listing equals resolution over the listing with oversized candidates
removed), and if no candidate matches both the name and the size
constraint, resolution fails with a not-found message that includes the
size constraint. ISO resolution applies no size filter (counterexample),
and a constraint of `0` is ignored by Python falsiness. -/
theorem c6_amended_template_size_filter (env : Env) (p : Params) (tname : String)
    (n : Nat) (ht : p.template = some tname) (hn : p.root_disk_size = some n)
    (hn0 : n ≠ 0) :
    get_template_or_iso env p =
      get_template_or_iso
        { env with templates := env.templates.filter fun t => decide (t.size ≤ n * 1024 ^ 3) } p ∧
    ((∀ t ∈ env.templates, ¬(template_name_matches tname t ∧ t.size ≤ n * 1024 ^ 3)) →
      get_template_or_iso env p =
        Except.error ("Template " ++ tname ++ " not found" ++
          (" (with size <= " ++ toString n ++ ")"))) := by
  have hne : ¬(p.template = none ∧ p.iso = none) := by simp [ht]
  constructor
  · simp only [get_template_or_iso, hne, ht, hn, if_neg]
    rw [← find_template_filter_eq tname n hn0]
  · intro hall
    simp only [get_template_or_iso, hne, ht, hn, if_neg]
    rw [find_template_none_of_no_fit tname n hn0 env.templates hall]
    have hsuf : template_size_suffix (some n) = " (with size <= " ++ toString n ++ ")" := by
      simp [template_size_suffix, rootdisksize_truthy, hn0]
    rw [hsuf, if_neg (by simp)]

/-- The listing environment of the C6 witness: one name-matching
template that is oversized for the constraint, one that fits. -/
def env_c6w : Env := { templates := [{ id := "tpl-2", name := "lin", size := 53687091200 }, { id := "tpl-3", name := "lin", size := 10737418240 }] }

/-- C6 witness: under a 20 GiB constraint the 50 GiB candidate named
`lin` is skipped and the 10 GiB one is returned; under a 5 GiB
constraint nothing fits and resolution fails with the constraint in the
message. -/
theorem c6_amended_template_size_filter_witness :
    get_template_or_iso env_c6w { template := some "lin", root_disk_size := some 20 } =
      Except.ok (some { id := "tpl-3", name := "lin", size := 10737418240 }) ∧
    get_template_or_iso env_c6w { template := some "lin", root_disk_size := some 5 } =
      Except.error "Template lin not found (with size <= 5)" := by
  constructor
  · have h := (c6_amended_template_size_filter env_c6w
      { template := some "lin", root_disk_size := some 20 } "lin" 20 rfl rfl
      (by decide)).1
    rw [h]
    rfl
  · have h := (c6_amended_template_size_filter env_c6w
      { template := some "lin", root_disk_size := some 5 } "lin" 5 rfl rfl
      (by decide)).2 (by decide)
    rw [h]
    rfl

/-! ## C9: networks / ip_to_networks mutual exclusion -/

/-- Whether an operation is a `deployVirtualMachine` call. -/
def is_deploy_op : Op → Bool
  | Op.deployVM _ => true
  | _ => false

/-- The listing environment of the C9 counterexample: one service
offering, one template, one resolvable network. -/
def env_c9 : Env := { serviceOfferings := [{ id := "so-1", name := "Tiny" }], templates := [{ id := "tpl-9", name := "Linux", displaytext := some "Linux", size := 1073741824 }], networks := [{ id := "net-1", name := "NetA", displaytext := "Network A" }] }

/-- C9 counterexample parameters, case (a): an empty `networks` list is
supplied together with a non-empty `ip_to_networks` list. -/
def p_c9a : Params := { template := some "Linux", networks := some [], ip_to_networks := some [{ network := "NetA", ip := "10.1.1.1" }], name := some "web-1" }

/-- C9 counterexample parameters, case (b): a non-empty but unresolvable
`networks` list is supplied together with a non-empty `ip_to_networks`
list. -/
def p_c9b : Params := { template := some "Linux", networks := some ["Ghost"], ip_to_networks := some [{ network := "NetA", ip := "10.1.1.1" }], name := some "web-1" }

/-- C9 counterexample: (a) with `networks=[]` (a supplied networks list)
and a non-empty `ip_to_networks`, no mutual-exclusion failure occurs —
the deployment call is issued (Python tests the truthiness of the
`networks` value, not its presence); (b) with a non-empty but
unresolvable `networks` list, the run fails during network resolution
with a not-found message, not the mutual-exclusion error, because
`get_network_ids` runs before the mutual-exclusion guard. -/
theorem c9_counterexample_truthiness_and_order :
    (deploy_instance env_c9 p_c9a true initial_run_state).fst =
      Except.ok (some env_c9.deployResult) ∧
    (deploy_instance env_c9 p_c9a true initial_run_state).snd.ops.map is_deploy_op =
      [true] ∧
    (deploy_instance env_c9 p_c9b true initial_run_state).fst =
      Except.error "Could not find all networks, networks list found: " ∧
    ("Could not find all networks, networks list found: " : String) ≠
      "networks and ip_to_networks are mutually exclusive." ∧
    (deploy_instance env_c9 p_c9b true initial_run_state).snd.ops = [] := by
  refine ⟨rfl, rfl, rfl, by decide, rfl⟩

/-- C9 as amended: when a non-empty `ip_to_networks` list and a
non-empty `networks` list are supplied, and the argument-assembly steps
that precede the guard succeed (the networks resolve and the boot
source, service offering and disk offering are found), the module fails
with the mutual-exclusion error during argument assembly, with no
mutating call issued — in particular before `deployVirtualMachine`. -/
theorem c9_amended_mutual_exclusion (env : Env) (p : Params) (start_vm : Bool)
    (l : List IpToNet) (ns : List String)
    (hip : p.ip_to_networks = some l) (hl : l ≠ [])
    (hns : p.networks = some ns) (hns0 : ns ≠ [])
    (ids : List String) (hnet : get_network_ids env p.networks = Except.ok (some ids))
    (t : BootImage) (htpl : get_template_or_iso env p = Except.ok (some t))
    (soid : String) (hso : get_service_offering_id env p = Except.ok soid)
    (doid : Option String) (hdo : get_disk_offering_id env p = Except.ok doid) :
    deploy_instance env p start_vm initial_run_state =
      (Except.error "networks and ip_to_networks are mutually exclusive.",
        { ops := [], changed := true, warnings := [] }) := by
  obtain ⟨a, as, rfl⟩ := List.exists_cons_of_ne_nil hns0
  have hmut : get_iptonetwork_mappings env p =
      Except.error "networks and ip_to_networks are mutually exclusive." := by
    simp [get_iptonetwork_mappings, hip, hl, networks_truthy, hns]
  simp [deploy_instance, hnet, htpl, hso, hdo, hmut, initial_run_state]

/-- The listing environment of the C9 witness (both network lists
resolvable). -/
def env_c9w : Env := { serviceOfferings := [{ id := "so-1", name := "Tiny" }], templates := [{ id := "tpl-9", name := "Linux", displaytext := some "Linux", size := 1073741824 }], networks := [{ id := "net-1", name := "NetA", displaytext := "Network A" }, { id := "net-2", name := "NetB", displaytext := "Network B" }] }

/-- The parameters of the C9 witness: non-empty `networks` and
non-empty `ip_to_networks` together. -/
def p_c9w : Params := { template := some "Linux", networks := some ["NetA"], ip_to_networks := some [{ network := "NetB", ip := "192.0.2.1" }], name := some "web-1" }

/-- C9 witness: with both lists non-empty and everything resolvable, the
run fails with the mutual-exclusion message and no mutating call. -/
theorem c9_amended_mutual_exclusion_witness :
    deploy_instance env_c9w p_c9w true initial_run_state =
      (Except.error "networks and ip_to_networks are mutually exclusive.",
        { ops := [], changed := true, warnings := [] }) := by
  exact c9_amended_mutual_exclusion env_c9w p_c9w true
    [{ network := "NetB", ip := "192.0.2.1" }] ["NetA"] rfl (by decide) rfl (by decide)
    ["net-1"] rfl { id := "tpl-9", name := "Linux", displaytext := some "Linux", size := 1073741824 } rfl
    "so-1" rfl none rfl

/-! ## C2: the force gate on a non-stopped instance -/

/-- Whether an operation belongs to the five update axes (stop,
service-offering change, attribute/security-group update, SSH-key reset,
volume resize). -/
def is_axis_op : Op → Bool
  | Op.stopVM _ => true
  | Op.changeServiceForVM _ _ => true
  | Op.updateVM _ => true
  | Op.resetSSHKeyForVM _ _ _ => true
  | Op.resizeVolume _ => true
  | _ => false

/-- C2: when at least one change axis fired but the live state is not
`stopped` (case-insensitively) and `force` is unset, the update phase
issues none of the five axis operations, records the warning, and does
not set `changed` for those axes — with no host pin given the run state
keeps `changed = false` and an empty operation list. -/
theorem c2_force_gate_warning (env : Env) (p : Params) (inst : Instance)
    (so ic sg ssh rds : Bool) (soid : Option String) (aiu : UpdateArgs)
    (avol : VolumeArgs) (start_vm : Bool)
    (hany : (so || ic || sg || ssh || rds) = true)
    (hstate : ¬ py_lower inst.state = "stopped")
    (hforce : p.force = false) :
    (update_instance_apply env p inst so ic sg ssh rds soid aiu avol start_vm
        initial_run_state).snd.warnings = [inst.name] ∧
    (∀ o ∈ (update_instance_apply env p inst so ic sg ssh rds soid aiu avol start_vm
        initial_run_state).snd.ops, is_axis_op o = false) ∧
    (p.host = none →
      update_instance_apply env p inst so ic sg ssh rds soid aiu avol start_vm
          initial_run_state =
        (Except.ok inst, { ops := [], changed := false, warnings := [inst.name] })) := by
  have hgate : ¬(py_lower inst.state = "stopped" ∨ p.force = true) := by
    rintro (h | h)
    · exact hstate h
    · rw [hforce] at h
      exact Bool.noConfusion h
  by_cases hmig : (py_lower inst.state = "starting" ∨ py_lower inst.state = "running")
      ∧ inst.hostname ≠ none ∧ p.host ≠ none ∧ p.host ≠ inst.hostname
  · obtain ⟨hst, hhn, hph, hpne⟩ := hmig
    cases hres : get_host_id env p with
    | error e =>
      have hr : update_instance_apply env p inst so ic sg ssh rds soid aiu avol start_vm
          initial_run_state =
          (Except.error e, { ops := [], changed := true, warnings := [inst.name] }) := by
        simp [update_instance_apply, hany, hgate, hres, hst, hhn, hph, hpne,
          initial_run_state]
      refine ⟨by rw [hr], by rw [hr]; intro o ho; simp at ho, fun hh => absurd hh hph⟩
    | ok hid =>
      by_cases hcm : p.check_mode
      · have hr : update_instance_apply env p inst so ic sg ssh rds soid aiu avol start_vm
            initial_run_state =
            (Except.ok inst, { ops := [], changed := true, warnings := [inst.name] }) := by
          simp [update_instance_apply, hany, hgate, hres, hst, hhn, hph, hpne, hcm,
            initial_run_state]
        refine ⟨by rw [hr], by rw [hr]; intro o ho; simp at ho, fun hh => absurd hh hph⟩
      · have hr : update_instance_apply env p inst so ic sg ssh rds soid aiu avol start_vm
            initial_run_state =
            (Except.ok inst,
              { ops := [Op.migrateVM inst.id hid], changed := true, warnings := [inst.name] }) := by
          simp [update_instance_apply, hany, hgate, hres, hst, hhn, hph, hpne, hcm,
            initial_run_state]
        refine ⟨by rw [hr], ?_, fun hh => absurd hh hph⟩
        rw [hr]
        intro o ho
        simp at ho
        rw [ho]
        rfl
  · have hr : update_instance_apply env p inst so ic sg ssh rds soid aiu avol start_vm
        initial_run_state =
        (Except.ok inst, { ops := [], changed := false, warnings := [inst.name] }) := by
      simp [update_instance_apply, hany, hgate, hmig, initial_run_state]
    exact ⟨by rw [hr], by rw [hr]; intro o ho; simp at ho, fun _ => hr⟩

/-- The running live instance of the C2 witness. -/
def inst_c2w : Instance := { id := "i-9", name := "web-9", displayname := "web-9", state := "Running" }

/-- C2 witness: a running instance with `force=false` and the
service-offering axis fired gets a warning, no operations, and
`changed=false`. -/
theorem c2_force_gate_warning_witness :
    update_instance_apply {} {} inst_c2w true false false false false (some "so-2")
        { id := "i-9" } {} true initial_run_state =
      (Except.ok inst_c2w, { ops := [], changed := false, warnings := ["web-9"] }) := by
  have h := (c2_force_gate_warning {} {} inst_c2w true false false false false (some "so-2")
    { id := "i-9" } {} true rfl (by decide) rfl).2.2 rfl
  exact h

/-! ## C1: order of the mutating operations of an applied update -/

/-- C1: when at least one change axis fired, the gate is open (state
`stopped` or `force`) and the run is not in check mode (host pinning
aside), the mutating operations are exactly, in order: a stop when the
instance was starting/running, the service-offering change when that
axis fired, `updateVirtualMachine` with the attribute and
security-group arguments when either of those axes fired, the SSH-key
reset when that axis fired, the ROOT-volume resize when that axis
fired, and finally a start exactly when the state before the cycle was
`running` and `start_vm` is set. -/
theorem c1_update_operation_order (env : Env) (p : Params) (inst : Instance)
    (so ic sg ssh rds : Bool) (soid : Option String) (aiu : UpdateArgs)
    (avol : VolumeArgs) (start_vm : Bool)
    (hany : (so || ic || sg || ssh || rds) = true)
    (hgate : py_lower inst.state = "stopped" ∨ p.force = true)
    (hcm : p.check_mode = false) (hhost : p.host = none) :
    (update_instance_apply env p inst so ic sg ssh rds soid aiu avol start_vm
        initial_run_state).snd.ops =
      (if py_lower inst.state = "starting" ∨ py_lower inst.state = "running"
        then [Op.stopVM inst.id] else [])
      ++ (if so then [Op.changeServiceForVM inst.id soid] else [])
      ++ (if ic || sg then
            [Op.updateVM (if sg then { aiu with securitygroupnames := some (String.intercalate "," (p.security_groups.getD [])) } else aiu)]
          else [])
      ++ (if ssh then [Op.resetSSHKeyForVM inst.id p.projectId p.ssh_keys] else [])
      ++ (if rds then [Op.resizeVolume avol] else [])
      ++ (if py_lower inst.state = "running" ∧ start_vm = true
          then [Op.startVM inst.id none] else []) := by
  have hgid : get_host_id env p = Except.ok none := by
    simp [get_host_id, hhost]
  have hlowStopped : py_lower ("Stopped" : String) = "stopped" := by decide
  rcases hgate with hst | hforce
  · have hGate : py_lower inst.state = "stopped" ∨ p.force = true := Or.inl hst
    have hAB : ¬(py_lower inst.state = "starting" ∨ py_lower inst.state = "running") := by
      rw [hst]; decide
    have hCD : py_lower inst.state = "stopping" ∨ py_lower inst.state = "stopped" :=
      Or.inr hst
    have hR : ¬(py_lower inst.state = "running" ∧ start_vm = true) := by
      rw [hst]
      rintro ⟨h, -⟩
      exact absurd h (by decide)
    cases so <;> cases ic <;> cases sg <;> cases ssh <;> cases rds <;>
      first
        | exact absurd hany (by decide)
        | simp [update_instance_apply, stop_instance_core, hGate, hAB, hCD, hR, hcm,
            hhost, initial_run_state]
  · have hGate : py_lower inst.state = "stopped" ∨ p.force = true := Or.inr hforce
    by_cases hAB : py_lower inst.state = "starting" ∨ py_lower inst.state = "running"
    · have hCD : ¬(py_lower inst.state = "stopping" ∨ py_lower inst.state = "stopped") := by
        rcases hAB with h | h <;> rw [h] <;> decide
      rcases hAB with hA | hA
      · have hABp : py_lower inst.state = "starting" ∨ py_lower inst.state = "running" :=
          Or.inl hA
        have hR : ¬(py_lower inst.state = "running" ∧ start_vm = true) := by
          rw [hA]
          rintro ⟨h, -⟩
          exact absurd h (by decide)
        cases so <;> cases ic <;> cases sg <;> cases ssh <;> cases rds <;>
          first
            | exact absurd hany (by decide)
            | simp [update_instance_apply, stop_instance_core, hforce, hGate, hABp, hCD, hR, hcm,
                hhost, initial_run_state]
      · have hABp : py_lower inst.state = "starting" ∨ py_lower inst.state = "running" :=
          Or.inr hA
        cases start_vm with
        | true =>
          cases so <;> cases ic <;> cases sg <;> cases ssh <;> cases rds <;>
            first
              | exact absurd hany (by decide)
              | simp [update_instance_apply, stop_instance_core, start_instance_core,
                  hforce, hGate, hABp, hCD, hA, hcm, hgid, hhost, hlowStopped, initial_run_state]
        | false =>
          have hR : ¬(py_lower inst.state = "running" ∧ false = true) := by
            rintro ⟨-, h⟩
            exact Bool.noConfusion h
          cases so <;> cases ic <;> cases sg <;> cases ssh <;> cases rds <;>
            first
              | exact absurd hany (by decide)
              | simp [update_instance_apply, stop_instance_core, hforce, hGate, hABp, hCD, hR, hcm,
                  hhost, initial_run_state]
    · by_cases hCD : py_lower inst.state = "stopping" ∨ py_lower inst.state = "stopped"
      · have hR : ¬(py_lower inst.state = "running" ∧ start_vm = true) := by
          rintro ⟨h, -⟩
          exact hAB (Or.inr h)
        cases so <;> cases ic <;> cases sg <;> cases ssh <;> cases rds <;>
          first
            | exact absurd hany (by decide)
            | simp [update_instance_apply, stop_instance_core, hforce, hGate, hAB, hCD, hR, hcm,
                hhost, initial_run_state]
      · have hR : ¬(py_lower inst.state = "running" ∧ start_vm = true) := by
          rintro ⟨h, -⟩
          exact hAB (Or.inr h)
        cases so <;> cases ic <;> cases sg <;> cases ssh <;> cases rds <;>
          first
            | exact absurd hany (by decide)
            | simp [update_instance_apply, stop_instance_core, hforce, hGate, hAB, hCD, hR, hcm,
                hhost, initial_run_state]

/-- The running live instance of the C1 witness. -/
def inst_c1w : Instance := { id := "i-10", name := "web-10", displayname := "web-10", state := "Running" }

/-- The parameters of the C1 witness: `force=true` with security groups
and SSH keys given. -/
def p_c1w : Params := { security_groups := some ["sg1", "sg2"], ssh_keys := some ["k1"], force := true }

/-- C1 witness: on a running instance with `force=true` and all five
axes fired, the trace is stop, service-offering change, update with the
joined security-group names, SSH-key reset, volume resize, start. -/
theorem c1_update_operation_order_witness :
    (update_instance_apply {} p_c1w inst_c1w true true true true true (some "so-2")
        { id := "i-10" } { id := "vol-1", size := 25 } true initial_run_state).snd.ops =
      [Op.stopVM "i-10",
        Op.changeServiceForVM "i-10" (some "so-2"),
        Op.updateVM { id := "i-10", securitygroupnames := some "sg1,sg2" },
        Op.resetSSHKeyForVM "i-10" none (some ["k1"]),
        Op.resizeVolume { id := "vol-1", size := 25 },
        Op.startVM "i-10" none] := by
  have h := c1_update_operation_order {} p_c1w inst_c1w true true true true true (some "so-2")
    { id := "i-10" } { id := "vol-1", size := 25 } true rfl (Or.inr rfl) rfl rfl
  rw [h]
  rfl

end CloudStackInstanceModel
